import Mathlib

/-!
Verification development for an Asterisk AI voice gateway.

The development shallowly embeds the persistence layer
(`src/database/call-repository.js`, `src/database/transcription-repository.js`),
the AMI call-lifecycle tracker (`src/services/ami-client.js`), the ARI voice
pipeline orchestrator (`src/services/ari-client.js`) and the mock transcription
runner (`src/services/ai-processor.js`).  SQL tables become lists of rows,
JavaScript `Map`s become association lists, timestamps become integers
(milliseconds), and each handler becomes a pure function on the relevant state.
-/

namespace VoiceGateway

/-! ### JavaScript `Map` model

`Map.set` replaces an existing binding in place or appends a fresh one,
`Map.get` returns the first (unique) binding, `Map.delete` removes it. -/

def mapSet {β : Type} (m : List (String × β)) (k : String) (v : β) : List (String × β) :=
  if m.any (fun p => p.1 == k) then
    m.map (fun p => if p.1 == k then (k, v) else p)
  else
    m ++ [(k, v)]

def mapLookup {β : Type} (m : List (String × β)) (k : String) : Option β :=
  (m.find? (fun p => p.1 == k)).map (fun p => p.2)

def mapDelete {β : Type} (m : List (String × β)) (k : String) : List (String × β) :=
  m.filter (fun p => p.1 != k)

namespace CallRepository

/-- A row of the `calls` table (`src/database/init.js`, used throughout
`src/database/call-repository.js`).  Times are epoch milliseconds. -/
structure CallRecord where
  id : Nat
  uniqueId : String
  callerId : String
  callerName : String
  destination : String
  channel : String
  callState : String
  answerTime : Option Int
  endTime : Option Int
  durationSeconds : Int
  hangupCause : Option String
  hangupCauseTxt : Option String
deriving Repr, DecidableEq

/-- The argument object of `CallRepository.createCall`. -/
structure CallData where
  uniqueId : String
  callerId : String
  callerName : String
  destination : String
  channel : String
  callState : String
deriving Repr, DecidableEq

/-- A row of the `call_events` table (`logCallEvent`).  The `call_id` column is
nullable because JavaScript callers may pass `undefined`. -/
structure CallEventRow where
  callId : Option Nat
  eventType : String
deriving Repr, DecidableEq

/-- The calls database: the `calls` table (with its autoincrement counter) and
the `call_events` table. -/
structure CallsDb where
  rows : List CallRecord
  events : List CallEventRow
  nextId : Nat
deriving Repr, DecidableEq

/-- Model of `getCallByUniqueId` — `SELECT * FROM calls WHERE unique_id = ?`
(`call-repository.js` lines 138-147): first row matching the key. -/
def getCallByUniqueId (uniqueId : String) (db : CallsDb) : Option CallRecord :=
  db.rows.find? (fun r => r.uniqueId == uniqueId)

/-- Model of `createCall` (`call-repository.js` lines 13-52): `INSERT INTO calls ...`.
The `unique_id` column carries a UNIQUE constraint; on a duplicate insert the
thrown `UNIQUE constraint failed` error is caught and the id of the existing
record is returned, leaving the table untouched.  Otherwise the row is inserted
with the given state (callers pass `'initiated'` or `'in_stasis'`) and the
fresh rowid is returned. -/
def createCall (callData : CallData) (db : CallsDb) : Option Nat × CallsDb :=
  if db.rows.any (fun r => r.uniqueId == callData.uniqueId) then
    ((getCallByUniqueId callData.uniqueId db).map (fun r => r.id), db)
  else
    (some db.nextId,
      { db with
        rows := db.rows ++
          [{ id := db.nextId
             uniqueId := callData.uniqueId
             callerId := callData.callerId
             callerName := callData.callerName
             destination := callData.destination
             channel := callData.channel
             callState := callData.callState
             answerTime := none
             endTime := none
             durationSeconds := 0
             hangupCause := none
             hangupCauseTxt := none }]
        nextId := db.nextId + 1 })

/-- Per-row effect of `updateCallAnswered`'s SQL `UPDATE`: the row is keyed
only by `unique_id`; `call_state` is overwritten with `'answered'`
unconditionally (lines 60-66 carry no condition on the current state). -/
def answerRow (uniqueId : String) (now : Int) (r : CallRecord) : CallRecord :=
  if r.uniqueId == uniqueId then
    { r with answerTime := some now, callState := "answered" }
  else r

/-- Model of `updateCallAnswered` (`call-repository.js` lines 57-72): runs the update
and returns `changes > 0`. -/
def updateCallAnswered (uniqueId : String) (now : Int) (db : CallsDb) :
    Bool × CallsDb :=
  (db.rows.any (fun r => r.uniqueId == uniqueId),
    { db with rows := db.rows.map (answerRow uniqueId now) })

/-- Per-row effect of `updateCallEnded`'s SQL `UPDATE` (lines 95-104). -/
def endRow (uniqueId : String) (durationSeconds : Int) (hangupCause hangupCauseTxt : String)
    (now : Int) (r : CallRecord) : CallRecord :=
  if r.uniqueId == uniqueId then
    { r with
      endTime := some now
      durationSeconds := durationSeconds
      hangupCause := some hangupCause
      hangupCauseTxt := some hangupCauseTxt
      callState := "ended" }
  else r

/-- Model of `updateCallEnded` (`call-repository.js` lines 77-115): looks the call up
first and returns `false` without touching the database when it is absent;
otherwise computes `durationSeconds = Math.floor((endTime - answerTime)/1000)`
when `answer_time` is set and `0` otherwise, then stamps
`end_time`, `duration_seconds`, `hangup_cause`, `hangup_cause_txt` and
`call_state = 'ended'`. -/
def updateCallEnded (uniqueId hangupCause hangupCauseTxt : String) (now : Int)
    (db : CallsDb) : Bool × CallsDb :=
  match getCallByUniqueId uniqueId db with
  | none => (false, db)
  | some call =>
    let durationSeconds : Int :=
      match call.answerTime with
      | some t => (now - t).fdiv 1000
      | none => 0
    (true,
      { db with
        rows := db.rows.map (endRow uniqueId durationSeconds hangupCause hangupCauseTxt now) })

/-- Model of `logCallEvent` (`call-repository.js` lines 244-253): append-only insert
into `call_events`. -/
def logCallEvent (callId : Option Nat) (eventType : String) (db : CallsDb) : CallsDb :=
  { db with events := db.events ++ [{ callId := callId, eventType := eventType }] }

/-- The UNIQUE constraint on `calls.unique_id`: no two rows share a key. -/
def UniqueIds (db : CallsDb) : Prop :=
  db.rows.Pairwise (fun a b => a.uniqueId ≠ b.uniqueId)

instance (db : CallsDb) : Decidable (UniqueIds db) :=
  inferInstanceAs (Decidable (db.rows.Pairwise (fun a b : CallRecord => a.uniqueId ≠ b.uniqueId)))

end CallRepository

namespace TranscriptionRepository

/-- A row of the `transcriptions` table
(`src/database/transcription-repository.js`).  `createdAt` mirrors the
`created_at` column used by the `ORDER BY` of `getPendingTranscriptions`. -/
structure TranscriptionRow where
  id : Nat
  callId : Nat
  recordingPath : String
  status : String
  text : Option String
  errorMessage : Option String
  processingStartedAt : Option Int
  processingCompletedAt : Option Int
  createdAt : Int
deriving Repr, DecidableEq

/-- The transcriptions table with its autoincrement counter. -/
structure TransDb where
  rows : List TranscriptionRow
  nextId : Nat
deriving Repr, DecidableEq

/-- Model of `createTranscription` (`transcription-repository.js` lines 13-27): inserts
a row with `transcription_status = 'pending'` and returns the fresh rowid. -/
def createTranscription (callId : Nat) (recordingPath : String) (createdAt : Int)
    (db : TransDb) : Nat × TransDb :=
  (db.nextId,
    { rows := db.rows ++
        [{ id := db.nextId
           callId := callId
           recordingPath := recordingPath
           status := "pending"
           text := none
           errorMessage := none
           processingStartedAt := none
           processingCompletedAt := none
           createdAt := createdAt }]
      nextId := db.nextId + 1 })

/-- Per-row effect of `markAsProcessing`'s SQL `UPDATE ... WHERE id = ?`
(lines 35-41): keyed only by `id`, with no condition on the current status. -/
def markRow (transcriptionId : Nat) (now : Int) (r : TranscriptionRow) : TranscriptionRow :=
  if r.id == transcriptionId then
    { r with status := "processing", processingStartedAt := some now }
  else r

/-- Model of `markAsProcessing` (`transcription-repository.js` lines 32-46). -/
def markAsProcessing (transcriptionId : Nat) (now : Int) (db : TransDb) :
    Bool × TransDb :=
  (db.rows.any (fun r => r.id == transcriptionId),
    { db with rows := db.rows.map (markRow transcriptionId now) })

/-- Per-row effect of `completeTranscription`'s SQL `UPDATE ... WHERE id = ?`
(lines 54-61): keyed only by `id`, with no condition on the current status. -/
def completeRow (transcriptionId : Nat) (transcriptionText : String) (now : Int)
    (r : TranscriptionRow) : TranscriptionRow :=
  if r.id == transcriptionId then
    { r with
      text := some transcriptionText
      status := "completed"
      processingCompletedAt := some now }
  else r

/-- Model of `completeTranscription` (`transcription-repository.js` lines 51-67). -/
def completeTranscription (transcriptionId : Nat) (transcriptionText : String)
    (now : Int) (db : TransDb) : Bool × TransDb :=
  (db.rows.any (fun r => r.id == transcriptionId),
    { db with rows := db.rows.map (completeRow transcriptionId transcriptionText now) })

/-- Per-row effect of `failTranscription`'s SQL `UPDATE ... WHERE id = ?`
(lines 75-82): keyed only by `id`, with no condition on the current status. -/
def failRow (transcriptionId : Nat) (errorMessage : String) (now : Int)
    (r : TranscriptionRow) : TranscriptionRow :=
  if r.id == transcriptionId then
    { r with
      status := "failed"
      errorMessage := some errorMessage
      processingCompletedAt := some now }
  else r

/-- Model of `failTranscription` (`transcription-repository.js` lines 72-88). -/
def failTranscription (transcriptionId : Nat) (errorMessage : String) (now : Int)
    (db : TransDb) : Bool × TransDb :=
  (db.rows.any (fun r => r.id == transcriptionId),
    { db with rows := db.rows.map (failRow transcriptionId errorMessage now) })

/-- Model of `getPendingTranscriptions` (`transcription-repository.js` lines 121-134):
`SELECT * FROM transcriptions WHERE transcription_status = 'pending'
ORDER BY created_at ASC`.  The `ORDER BY` clause is modelled by a sort on the
`created_at` column. -/
def getPendingTranscriptions (db : TransDb) : List TranscriptionRow :=
  List.insertionSort (fun a b => a.createdAt ≤ b.createdAt)
    (db.rows.filter (fun r => r.status == "pending"))

end TranscriptionRepository

namespace AIProcessor

open TranscriptionRepository

/-- Outcome of one simulated transcription run inside `processRecording`'s
`try` block (`src/services/ai-processor.js` lines 55-92): either the randomly
selected mock text, or a thrown internal error's message. -/
inductive AIResult where
  | ok (text : String)
  | err (msg : String)
deriving Repr, DecidableEq

/-- Model of `AIProcessor.processRecording` (`ai-processor.js` lines 49-93): marks the
job `processing`, then on success stores the mock transcription via
`completeTranscription`, and on a thrown error stores the message via
`failTranscription`, returning `success` accordingly instead of raising. -/
def processRecording (transcriptionId : Nat) (result : AIResult) (now : Int)
    (db : TransDb) : Bool × TransDb :=
  let db1 := (markAsProcessing transcriptionId now db).2
  match result with
  | .ok text => (true, (completeTranscription transcriptionId text now db1).2)
  | .err msg => (false, (failTranscription transcriptionId msg now db1).2)

/-- A JavaScript value as it flows through `retryFailed`: the result of
calling an `async` function is a `promise` of the eventual row list unless the
call is `await`ed, in which case it is the `array` itself. -/
inductive JsValue where
  | array (rows : List TranscriptionRow)
  | promise (rows : List TranscriptionRow)
deriving Repr, DecidableEq

/-- JavaScript `for ... of` iteration over such a value: an array iterates its
rows; a Promise has no iteration protocol, so `for ... of` throws
`TypeError: pending is not iterable`. -/
def iterateJs (v : JsValue) : Except String (List TranscriptionRow) :=
  match v with
  | .array rows => .ok rows
  | .promise _ => .error "TypeError: pending is not iterable"

/-- Model of `AIProcessor.retryFailed` (`ai-processor.js`): the source reads
`const pending = TranscriptionRepository.getPendingTranscriptions();` with no
`await`, although `getPendingTranscriptions` is `static async`.  `pending` is
therefore a pending Promise of the row list, not the list: `pending.length`
is `undefined` in the log line, and `for (const transcription of pending)`
throws `TypeError` before any `processRecording` call, rejecting the async
function with the store untouched.  Had the value been awaited, the loop
would have awaited `processRecording` for each fetched job in order, one at a
time.  Returns the resulting store and the function's outcome; `results`
supplies each job's simulated outcome. -/
def retryFailed (results : Nat → AIResult) (now : Int) (db : TransDb) :
    TransDb × Except String Unit :=
  let pending := JsValue.promise (getPendingTranscriptions db)
  match iterateJs pending with
  | .error e => (db, .error e)
  | .ok rows =>
    (rows.foldl (fun d t => (processRecording t.id (results t.id) now d).2) db,
      .ok ())

end AIProcessor

namespace AMIClient

open CallRepository

/-- An AMI event payload as consumed by the handlers of
`src/services/ami-client.js`.  `uniqueid` is optional because the guard of
`handleNewChannel` tests it for JavaScript falsiness. -/
structure AmiEvent where
  uniqueid : Option String
  calleridnum : String
  calleridname : String
  exten : String
  channel : String
  channelstate : Int
  cause : String
  causeTxt : String
deriving Repr, DecidableEq

/-- JavaScript truthiness of the `uniqueid` field: `undefined` and the empty
string are falsy. -/
def truthy (s : Option String) : Bool :=
  match s with
  | none => false
  | some v => !v.isEmpty

/-- The tracker state of an `AMIClient` instance: the shared calls database
plus the `activeCalls` map (uniqueId to the cached record id; the JS cache
stores `{ id: callId, ...callData }`, of which only `id` is ever read). -/
structure AMIState where
  db : CallsDb
  activeCalls : List (String × Option Nat)
deriving Repr, DecidableEq

/-- Model of `handleNewChannel` (`ami-client.js` lines 160-192): returns immediately
when `event.uniqueid` is falsy; otherwise creates the call record
(idempotently), caches it in `activeCalls`, logs a `newchannel` event, and
emits the `newchannel` notification.  The returned flag records whether the
notification was emitted. -/
def handleNewChannel (event : AmiEvent) (s : AMIState) : AMIState × Bool :=
  match event.uniqueid with
  | none => (s, false)
  | some uid =>
    if uid.isEmpty then (s, false)
    else
      let callData : CallData :=
        { uniqueId := uid
          callerId := event.calleridnum
          callerName := event.calleridname
          destination := event.exten
          channel := event.channel
          callState := "initiated" }
      let created := createCall callData s.db
      let db1 := logCallEvent created.1 "newchannel" created.2
      ({ db := db1, activeCalls := mapSet s.activeCalls uid created.1 }, true)

/-- Model of `handleNewState` (`ami-client.js` lines 202-241): on channel state `6`
(Up) it calls `updateCallAnswered`, logs an `answered` event when the call is
cached, and emits `callanswered`; all other states change nothing.  The flag
records whether `callanswered` was emitted. -/
def handleNewState (event : AmiEvent) (now : Int) (s : AMIState) : AMIState × Bool :=
  if event.channelstate == 6 then
    let uid := event.uniqueid.getD ""
    let db1 := (updateCallAnswered uid now s.db).2
    let db2 :=
      match mapLookup s.activeCalls uid with
      | some callId => logCallEvent callId "answered" db1
      | none => db1
    ({ s with db := db2 }, true)
  else (s, false)

/-- Model of `handleHangup` (`ami-client.js` lines 288-322): calls `updateCallEnded`
(which is a guarded no-op for an unknown `uniqueId`), and only when the call
is present in `activeCalls` logs a `hangup` event and evicts the cache
entry. -/
def handleHangup (event : AmiEvent) (now : Int) (s : AMIState) : AMIState :=
  let uid := event.uniqueid.getD ""
  let db1 := (updateCallEnded uid event.cause event.causeTxt now s.db).2
  match mapLookup s.activeCalls uid with
  | some callId =>
    { db := logCallEvent callId "hangup" db1
      activeCalls := mapDelete s.activeCalls uid }
  | none => { s with db := db1 }

/-- The connection-supervisor fields of an `AMIClient`/`ARIClient` instance
(`ami-client.js` lines 31-35, `ari-client.js` lines 39-43).
`reconnectTimer` records whether a retry timer is outstanding. -/
structure SupervisorState where
  isConnected : Bool
  reconnectAttempts : Nat
  reconnectTimer : Bool
  shouldReconnect : Bool
deriving Repr, DecidableEq

/-- The constructor's initial supervisor state. -/
def initSupervisor : SupervisorState :=
  { isConnected := false
    reconnectAttempts := 0
    reconnectTimer := false
    shouldReconnect := true }

/-- Model of `scheduleReconnect` (`ami-client.js` lines 340-359, identically
`ari-client.js` lines 459-478): a no-op once `disconnect` has cleared
`shouldReconnect`; when `maxReconnectAttempts > 0` and the attempt counter has
reached it, logs `Max reconnect attempts reached` and schedules nothing;
otherwise increments the counter and arms the retry timer.  Returns
(new state, timer scheduled?, exhaustion logged?). -/
def scheduleReconnect (maxReconnectAttempts : Nat) (s : SupervisorState) :
    SupervisorState × Bool × Bool :=
  if !s.shouldReconnect then (s, false, false)
  else if 0 < maxReconnectAttempts ∧ maxReconnectAttempts ≤ s.reconnectAttempts then
    (s, false, true)
  else
    ({ s with reconnectAttempts := s.reconnectAttempts + 1, reconnectTimer := true },
      true, false)

/-- The `connect` handler on success (`ami-client.js` lines 73-80): sets
`isConnected` and resets the consecutive-attempt counter. -/
def onConnectSuccess (s : SupervisorState) : SupervisorState :=
  { s with isConnected := true, reconnectAttempts := 0 }

/-- A connection failure (timeout, connect error, or close while connected):
every such path ends in a `scheduleReconnect` call. -/
def onConnectFailure (maxReconnectAttempts : Nat) (s : SupervisorState) : SupervisorState :=
  (scheduleReconnect maxReconnectAttempts s).1

/-- Runs `n` consecutive connection failures from the freshly constructed client. -/
def iterFailures (maxReconnectAttempts n : Nat) : SupervisorState :=
  (onConnectFailure maxReconnectAttempts)^[n] initSupervisor

/-- The shape returned by `AMIClient.getStatus` (`ami-client.js`
lines 418-426). -/
structure AmiStatus where
  connected : Bool
  host : String
  port : Nat
  reconnectAttempts : Nat
  activeCalls : Nat
deriving Repr, DecidableEq

/-- Model of `getStatus` (`ami-client.js` lines 418-426). -/
def getStatus (host : String) (port : Nat) (activeCallsSize : Nat)
    (s : SupervisorState) : AmiStatus :=
  { connected := s.isConnected
    host := host
    port := port
    reconnectAttempts := s.reconnectAttempts
    activeCalls := activeCallsSize }

end AMIClient

namespace ARIClient

/-- Per-channel session data stored in `activeChannels`
(`src/services/ari-client.js` lines 172-178 and subsequent mutations).  The
`channel` handle itself is not modelled. -/
structure ChannelData where
  callerId : String
  callerName : String
  startTime : Int
  state : String
  currentPlayback : Option String
  pendingRecording : Bool
  recordingName : Option String
deriving Repr, DecidableEq

/-- Session creation in `handleStasisStart` (`ari-client.js` lines 172-178):
`state: 'started'`, no correlation keys yet. -/
def stasisStartSession (callerId callerName : String) (startTime : Int) : ChannelData :=
  { callerId := callerId
    callerName := callerName
    startTime := startTime
    state := "started"
    currentPlayback := none
    pendingRecording := false
    recordingName := none }

/-- The mutation after `channel.answer()` succeeds (`ari-client.js`
line 185): `state = 'answered'`. -/
def answerSession (d : ChannelData) : ChannelData :=
  { d with state := "answered" }

/-- The session mutation inside `playPrompt` (`ari-client.js` lines 217-221):
stores the generated playback id and flags the pending recording.  The
session's `state` field is not assigned here. -/
def playPromptSession (playbackId : String) (d : ChannelData) : ChannelData :=
  { d with currentPlayback := some playbackId, pendingRecording := true }

/-- The matched-session mutation in `handlePlaybackFinished` (`ari-client.js`
line 249): clears the pending-recording flag before `startRecording`. -/
def playbackFinishedSession (d : ChannelData) : ChannelData :=
  { d with pendingRecording := false }

/-- The session mutation inside `startRecording` (`ari-client.js`
lines 272-276): stores the recording name and sets `state = 'recording'`. -/
def startRecordingSession (recordingName : String) (d : ChannelData) : ChannelData :=
  { d with recordingName := some recordingName, state := "recording" }

/-- The matched-session mutation in `handleRecordingFinished`
(`ari-client.js` line 344): `state = 'processing'`. -/
def recordingFinishedSession (d : ChannelData) : ChannelData :=
  { d with state := "processing" }

/-- The value of `session.state` after each step of the normal pipeline:
session creation, successful answer, prompt playback started,
playback finished plus recording started, recording finished. -/
def normalStateTrace (callerId callerName : String) (startTime : Int)
    (playbackId recordingName : String) : List String :=
  let d0 := stasisStartSession callerId callerName startTime
  let d1 := answerSession d0
  let d2 := playPromptSession playbackId d1
  let d3 := startRecordingSession recordingName (playbackFinishedSession d2)
  let d4 := recordingFinishedSession d3
  [d0.state, d1.state, d2.state, d3.state, d4.state]

/-- The scan of `handlePlaybackFinished` (`ari-client.js` lines 247-255): the
`for ... of` loop over `activeChannels` takes the first session whose
`currentPlayback` equals the finished playback's id and whose
`pendingRecording` flag is set, then breaks. -/
def findChannelForPlayback (playbackId : String)
    (activeChannels : List (String × ChannelData)) : Option (String × ChannelData) :=
  activeChannels.find?
    (fun p => p.2.currentPlayback == some playbackId && p.2.pendingRecording)

/-- The scan of `handleRecordingFinished` (`ari-client.js` lines 342-399):
the `for ... of` loop takes the first session whose `recordingName` equals the
finished recording's name, then breaks. -/
def findChannelForRecording (recordingName : String)
    (activeChannels : List (String × ChannelData)) : Option (String × ChannelData) :=
  activeChannels.find? (fun p => p.2.recordingName == some recordingName)

/-- Distinct in-flight playback correlation keys: no two sessions in the index
hold the same `currentPlayback` id. -/
def DistinctPlaybackKeys (activeChannels : List (String × ChannelData)) : Prop :=
  activeChannels.Pairwise
    (fun a b => a.2.currentPlayback = none ∨ a.2.currentPlayback ≠ b.2.currentPlayback)

/-- Distinct in-flight recording correlation keys: no two sessions in the
index hold the same `recordingName`. -/
def DistinctRecordingKeys (activeChannels : List (String × ChannelData)) : Prop :=
  activeChannels.Pairwise
    (fun a b => a.2.recordingName = none ∨ a.2.recordingName ≠ b.2.recordingName)

instance (m : List (String × ChannelData)) : Decidable (DistinctPlaybackKeys m) :=
  inferInstanceAs (Decidable (m.Pairwise (fun a b : String × ChannelData =>
    a.2.currentPlayback = none ∨ a.2.currentPlayback ≠ b.2.currentPlayback)))

instance (m : List (String × ChannelData)) : Decidable (DistinctRecordingKeys m) :=
  inferInstanceAs (Decidable (m.Pairwise (fun a b : String × ChannelData =>
    a.2.recordingName = none ∨ a.2.recordingName ≠ b.2.recordingName)))

end ARIClient

/-! ### Concrete fixtures

Small concrete databases, events and session indices used to instantiate the
theorems below on explicit inputs. -/

open CallRepository TranscriptionRepository AIProcessor AMIClient ARIClient

/-- A call answered at 5000 ms, not yet ended. -/
def answeredRec : CallRecord :=
  { id := 1
    uniqueId := "abc.1"
    callerId := "1001"
    callerName := "Alice"
    destination := "777"
    channel := "PJSIP/1001-0001"
    callState := "answered"
    answerTime := some 5000
    endTime := none
    durationSeconds := 0
    hangupCause := none
    hangupCauseTxt := none }

/-- A single-call database holding `answeredRec`. -/
def answeredDb : CallsDb :=
  { rows := [answeredRec], events := [], nextId := 2 }

/-- A call that has already reached `call_state = 'ended'`. -/
def endedRec : CallRecord :=
  { id := 1
    uniqueId := "abc.1"
    callerId := "1001"
    callerName := "Alice"
    destination := "777"
    channel := "PJSIP/1001-0001"
    callState := "ended"
    answerTime := some 5000
    endTime := some 7000
    durationSeconds := 2
    hangupCause := some "16"
    hangupCauseTxt := some "Normal Clearing"
    }

/-- A tracker state whose only call has already ended. -/
def endedState : AMIState :=
  { db := { rows := [endedRec], events := [], nextId := 2 }, activeCalls := [] }

/-- An AMI `Newstate` event with the answered channel-state code 6 for the
already-ended call. -/
def answeredEvent : AmiEvent :=
  { uniqueid := some "abc.1"
    calleridnum := "1001"
    calleridname := "Alice"
    exten := "777"
    channel := "PJSIP/1001-0001"
    channelstate := 6
    cause := ""
    causeTxt := "" }

/-- An AMI `Newchannel` event whose payload lacks the `uniqueid` field. -/
def noUniqueIdEvent : AmiEvent :=
  { uniqueid := none
    calleridnum := "1001"
    calleridname := "Alice"
    exten := "777"
    channel := "PJSIP/1001-0001"
    channelstate := 0
    cause := ""
    causeTxt := "" }

/-- An AMI `Hangup` event for a `uniqueid` that was never tracked. -/
def ghostHangupEvent : AmiEvent :=
  { uniqueid := some "ghost.9"
    calleridnum := "2002"
    calleridname := "Bob"
    exten := "777"
    channel := "PJSIP/2002-0009"
    channelstate := 0
    cause := "21"
    causeTxt := "Call Rejected" }

/-- The `CallData` object of a duplicate `createCall` for `abc.1`. -/
def dupCallData : CallData :=
  { uniqueId := "abc.1"
    callerId := "1001"
    callerName := "Alice"
    destination := "777"
    channel := "PJSIP/1001-0001"
    callState := "initiated" }

/-- A transcription job already in the terminal `completed` status. -/
def completedJob : TranscriptionRow :=
  { id := 1
    callId := 1
    recordingPath := "/var/spool/asterisk/recording/recording-1.wav"
    status := "completed"
    text := some "Hello, I'm calling to inquire about your services."
    errorMessage := none
    processingStartedAt := some 10
    processingCompletedAt := some 20
    createdAt := 0 }

/-- A transcriptions table whose only job is `completedJob`. -/
def completedTransDb : TransDb :=
  { rows := [completedJob], nextId := 2 }

/-- A transcriptions table whose only job is still `pending`. -/
def pendingTransDb : TransDb :=
  { rows :=
      [{ id := 1
         callId := 1
         recordingPath := "/var/spool/asterisk/recording/recording-1.wav"
         status := "pending"
         text := none
         errorMessage := none
         processingStartedAt := none
         processingCompletedAt := none
         createdAt := 0 }]
    nextId := 2 }

/-- Session data for channel A: prompt playback `pb-1` in flight. -/
def sessionA : ChannelData :=
  { callerId := "1001"
    callerName := "Alice"
    startTime := 0
    state := "answered"
    currentPlayback := some "pb-1"
    pendingRecording := true
    recordingName := some "rec-A" }

/-- Session data for channel B: prompt playback `pb-2` in flight. -/
def sessionB : ChannelData :=
  { callerId := "2002"
    callerName := "Bob"
    startTime := 0
    state := "answered"
    currentPlayback := some "pb-2"
    pendingRecording := true
    recordingName := some "rec-B" }

/-- Two concurrently active sessions holding distinct correlation keys. -/
def twoSessions : List (String × ChannelData) :=
  [("chan-A", sessionA), ("chan-B", sessionB)]

/-- The empty tracker state. -/
def emptyAmiState : AMIState :=
  { db := { rows := [], events := [], nextId := 1 }, activeCalls := [] }

/-- The record `endedRec` after a later `updateCallAnswered` at 8000 ms. -/
def reAnsweredRec : CallRecord :=
  { endedRec with callState := "answered", answerTime := some 8000 }

/-- The job `completedJob` after a later `failTranscription` at 99 ms. -/
def failedJobAfter : TranscriptionRow :=
  { completedJob with
    status := "failed"
    errorMessage := some "synthetic failure"
    processingCompletedAt := some 99 }

/-! ### Helper lemmas -/

/-- The scan `find?` commutes with a map that does not change the predicate. -/
theorem find?_map_pred {α : Type} {f : α → α} {p : α → Bool}
    (h : ∀ x, p (f x) = p x) :
    ∀ l : List α, (l.map f).find? p = (l.find? p).map f := by
  intro l
  induction l with
  | nil => rfl
  | cons x xs ih =>
    cases hx : p x with
    | true =>
      rw [List.map_cons, List.find?_cons_of_pos _ (show p (f x) by rw [h]; exact hx),
        List.find?_cons_of_pos _ hx, Option.map_some']
    | false =>
      rw [List.map_cons, List.find?_cons_of_neg _ (show ¬p (f x) by simp [h, hx]),
        List.find?_cons_of_neg _ (show ¬p x by simp [hx]), ih]

/-- Under a pairwise mutual-exclusion discipline, at most one element of a
list satisfies the predicate. -/
theorem mem_pred_unique {α : Type} {p : α → Bool} :
    ∀ {l : List α}, l.Pairwise (fun a b => ¬(p a = true ∧ p b = true)) →
      ∀ a ∈ l, ∀ b ∈ l, p a = true → p b = true → a = b := by
  intro l
  induction l with
  | nil => intro _ a ha; cases ha
  | cons x xs ih =>
    intro hl a ha b hb hpa hpb
    rw [List.pairwise_cons] at hl
    rcases List.mem_cons.mp ha with ha1 | ha2
    · rcases List.mem_cons.mp hb with hb1 | hb2
      · rw [ha1, hb1]
      · exact absurd ⟨ha1 ▸ hpa, hpb⟩ (hl.1 b hb2)
    · rcases List.mem_cons.mp hb with hb1 | hb2
      · exact absurd ⟨hb1 ▸ hpb, hpa⟩ (hl.1 a ha2)
      · exact ih hl.2 a ha2 b hb2 hpa hpb

/-- The scan `find?` returns the unique satisfying element of a list. -/
theorem find?_first_unique {α : Type} {p : α → Bool} :
    ∀ (l : List α) (a : α), a ∈ l → p a = true →
      (∀ b ∈ l, p b = true → b = a) → l.find? p = some a := by
  intro l
  induction l with
  | nil => intro a ha; cases ha
  | cons x xs ih =>
    intro a ha hpa huniq
    cases hx : p x with
    | true =>
      rw [List.find?_cons_of_pos _ hx]
      exact congrArg some (huniq x (List.mem_cons_self x xs) hx)
    | false =>
      rw [List.find?_cons_of_neg _ (show ¬p x by simp [hx])]
      have ha' : a ∈ xs := by
        rcases List.mem_cons.mp ha with rfl | h
        · rw [hpa] at hx; cases hx
        · exact h
      exact ih a ha' hpa (fun b hb hpb => huniq b (List.mem_cons_of_mem _ hb) hpb)

/-! ### Claim theorems -/

/-- C10: a channel-created event whose payload lacks a (truthy) `uniqueid` is
ignored entirely by the tracker: `handleNewChannel` returns immediately, so no
call record is created, the active-call cache is unchanged, and no downstream
`newchannel` notification is emitted. -/
theorem handleNewChannel_missing_uniqueid_ignored
    (event : AMIClient.AmiEvent) (s : AMIClient.AMIState)
    (h : AMIClient.truthy event.uniqueid = false) :
    AMIClient.handleNewChannel event s = (s, false) := by
  cases hev : event.uniqueid with
  | none => simp [AMIClient.handleNewChannel, hev]
  | some uid =>
    have hemp : uid.isEmpty = true := by
      simpa [AMIClient.truthy, hev] using h
    simp [AMIClient.handleNewChannel, hev, hemp]

/-- Witness for C10 at a concrete event with no `uniqueid`. -/
theorem handleNewChannel_missing_uniqueid_ignored_witness :
    AMIClient.truthy noUniqueIdEvent.uniqueid = false ∧
    AMIClient.handleNewChannel noUniqueIdEvent emptyAmiState = (emptyAmiState, false) :=
  ⟨by decide,
    handleNewChannel_missing_uniqueid_ignored noUniqueIdEvent emptyAmiState (by decide)⟩

/-- C6: a hangup event whose `uniqueId` matches no existing call record and no
active-call cache entry creates no record, leaves the store (rows and event
log) and the cache unchanged, and raises nothing: the handler returns the
state as it was. -/
theorem handleHangup_unknown_noop (event : AMIClient.AmiEvent) (now : Int)
    (s : AMIClient.AMIState) (uid : String)
    (huid : event.uniqueid = some uid)
    (hdb : CallRepository.getCallByUniqueId uid s.db = none)
    (hcache : mapLookup s.activeCalls uid = none) :
    AMIClient.handleHangup event now s = s := by
  simp [AMIClient.handleHangup, huid, CallRepository.updateCallEnded, hdb, hcache]

/-- Witness for C6 at a concrete untracked hangup. -/
theorem handleHangup_unknown_noop_witness :
    CallRepository.getCallByUniqueId "ghost.9" endedState.db = none ∧
    mapLookup endedState.activeCalls "ghost.9" = none ∧
    AMIClient.handleHangup ghostHangupEvent 9000 endedState = endedState :=
  ⟨by decide, by decide,
    handleHangup_unknown_noop ghostHangupEvent 9000 endedState "ghost.9"
      (by decide) (by decide) (by decide)⟩

/-- C5: call-record creation is idempotent per `uniqueId`: if the rows satisfy
the UNIQUE constraint they still do after `createCall`, and a duplicate
`createCall` for an already-recorded `uniqueId` returns the id of the existing
record and leaves the database untouched instead of raising. -/
theorem createCall_idempotent (callData : CallRepository.CallData)
    (db : CallRepository.CallsDb) (hu : CallRepository.UniqueIds db) :
    CallRepository.UniqueIds (CallRepository.createCall callData db).2 ∧
    ∀ r, CallRepository.getCallByUniqueId callData.uniqueId db = some r →
      CallRepository.createCall callData db = (some r.id, db) := by
  by_cases hex : db.rows.any (fun r => r.uniqueId == callData.uniqueId) = true
  · constructor
    · simpa only [CallRepository.createCall, hex, if_pos] using hu
    · intro r hr
      simp only [CallRepository.createCall, hex, if_pos, hr,
        CallRepository.getCallByUniqueId] at *
      rw [hr, Option.map_some']
  · constructor
    · have hall : ∀ a ∈ db.rows, ¬(a.uniqueId == callData.uniqueId) = true := by
        intro a hain hba
        exact hex (List.any_eq_true.mpr ⟨a, hain, hba⟩)
      unfold CallRepository.UniqueIds CallRepository.createCall
      rw [if_neg hex]
      refine List.pairwise_append.mpr ⟨hu, List.pairwise_singleton _ _, ?_⟩
      intro a hain b hbin
      have hb : b.uniqueId = callData.uniqueId := by
        rcases List.mem_singleton.mp hbin with rfl
        rfl
      rw [hb]
      intro heq
      exact hall a hain (beq_iff_eq.mpr heq)
    · intro r hr
      exact absurd
        (List.any_eq_true.mpr
          ⟨r, List.mem_of_find?_eq_some hr, List.find?_some hr⟩) hex

/-- Witness for C5: a duplicate `createCall` for `abc.1` resolves to the
existing record's id and leaves the store unchanged. -/
theorem createCall_idempotent_witness :
    CallRepository.UniqueIds answeredDb ∧
    CallRepository.createCall dupCallData answeredDb = (some 1, answeredDb) := by
  have h := createCall_idempotent dupCallData answeredDb (by decide)
  exact ⟨by decide, h.2 answeredRec (by decide)⟩

/-- C4: for every call ended via `updateCallEnded` that exists in the store,
the record's state becomes `ended`, `endTime`, `hangupCause` and
`hangupCauseTxt` are stamped, and `durationSeconds` is the
floor-rounded whole-second difference between end time and answer time when
the call was answered, and `0` when it never was. -/
theorem updateCallEnded_stamps (db : CallRepository.CallsDb)
    (uniqueId hangupCause hangupCauseTxt : String) (now : Int)
    (call : CallRepository.CallRecord)
    (h : CallRepository.getCallByUniqueId uniqueId db = some call) :
    (CallRepository.updateCallEnded uniqueId hangupCause hangupCauseTxt now db).1 = true ∧
    CallRepository.getCallByUniqueId uniqueId
        (CallRepository.updateCallEnded uniqueId hangupCause hangupCauseTxt now db).2 =
      some { call with
             endTime := some now
             durationSeconds :=
               match call.answerTime with
               | some t => (now - t).fdiv 1000
               | none => 0
             hangupCause := some hangupCause
             hangupCauseTxt := some hangupCauseTxt
             callState := "ended" } := by
  have h' : db.rows.find? (fun r => r.uniqueId == uniqueId) = some call := h
  have hp := List.find?_some h'
  constructor
  · simp [CallRepository.updateCallEnded, h]
  · unfold CallRepository.updateCallEnded
    rw [h]
    show CallRepository.getCallByUniqueId uniqueId
        { db with rows := db.rows.map (CallRepository.endRow uniqueId _ _ _ now) } = _
    unfold CallRepository.getCallByUniqueId
    rw [show ({ db with
          rows := db.rows.map (CallRepository.endRow uniqueId
            (match call.answerTime with
             | some t => (now - t).fdiv 1000
             | none => 0) hangupCause hangupCauseTxt now) } :
        CallRepository.CallsDb).rows = db.rows.map (CallRepository.endRow uniqueId
          (match call.answerTime with
           | some t => (now - t).fdiv 1000
           | none => 0) hangupCause hangupCauseTxt now) from rfl]
    rw [find?_map_pred (fun x => by unfold CallRepository.endRow; split <;> rfl), h',
      Option.map_some']
    unfold CallRepository.endRow
    rw [if_pos hp]

/-- Witness for C4: the call answered at 5000 ms and ended at 7500 ms gets
`durationSeconds = 2`, state `ended`, and the hangup cause stamped. -/
theorem updateCallEnded_stamps_witness :
    (CallRepository.updateCallEnded "abc.1" "16" "Normal Clearing" 7500 answeredDb).1 = true ∧
    CallRepository.getCallByUniqueId "abc.1"
        (CallRepository.updateCallEnded "abc.1" "16" "Normal Clearing" 7500 answeredDb).2 =
      some { answeredRec with
             endTime := some 7500
             durationSeconds := 2
             hangupCause := some "16"
             hangupCauseTxt := some "Normal Clearing"
             callState := "ended" } := by
  have h := updateCallEnded_stamps answeredDb "abc.1" "16" "Normal Clearing" 7500
    answeredRec (by decide)
  refine ⟨h.1, ?_⟩
  rw [h.2]
  decide

/-- A connection failure never flips `isConnected` or `shouldReconnect`. -/
theorem onConnectFailure_fields (maxReconnectAttempts : Nat)
    (s : AMIClient.SupervisorState) :
    (AMIClient.onConnectFailure maxReconnectAttempts s).isConnected = s.isConnected ∧
    (AMIClient.onConnectFailure maxReconnectAttempts s).shouldReconnect = s.shouldReconnect := by
  unfold AMIClient.onConnectFailure AMIClient.scheduleReconnect
  split
  · exact ⟨rfl, rfl⟩
  · split
    · exact ⟨rfl, rfl⟩
    · exact ⟨rfl, rfl⟩

/-- After any number of consecutive failures the supervisor is still
disconnected and still willing to reconnect. -/
theorem iterFailures_fields (maxReconnectAttempts : Nat) :
    ∀ n, (AMIClient.iterFailures maxReconnectAttempts n).isConnected = false ∧
      (AMIClient.iterFailures maxReconnectAttempts n).shouldReconnect = true := by
  intro n
  induction n with
  | zero => exact ⟨rfl, rfl⟩
  | succ n ih =>
    unfold AMIClient.iterFailures at *
    rw [Function.iterate_succ_apply']
    rw [(onConnectFailure_fields maxReconnectAttempts _).1,
      (onConnectFailure_fields maxReconnectAttempts _).2]
    exact ih

/-- The effect of one failure on the attempt counter, given the supervisor has
not been stopped. -/
theorem onConnectFailure_attempts (maxReconnectAttempts : Nat)
    (s : AMIClient.SupervisorState) (hs : s.shouldReconnect = true) :
    (AMIClient.onConnectFailure maxReconnectAttempts s).reconnectAttempts =
      if 0 < maxReconnectAttempts ∧ maxReconnectAttempts ≤ s.reconnectAttempts then
        s.reconnectAttempts
      else s.reconnectAttempts + 1 := by
  unfold AMIClient.onConnectFailure AMIClient.scheduleReconnect
  rw [hs]
  simp only [Bool.not_true, Bool.false_eq_true, if_false]
  split
  · rfl
  · rfl

/-- With `maxReconnectAttempts = 3` the attempt counter is capped at 3. -/
theorem iterFailures_attempts_capped :
    ∀ n, (AMIClient.iterFailures 3 n).reconnectAttempts = min n 3 := by
  intro n
  induction n with
  | zero => rfl
  | succ n ih =>
    have hsr := (iterFailures_fields 3 n).2
    unfold AMIClient.iterFailures at *
    rw [Function.iterate_succ_apply', onConnectFailure_attempts 3 _ hsr, ih]
    by_cases h3 : 3 ≤ n
    · rw [if_pos ⟨by omega, by omega⟩]
      omega
    · rw [if_neg (by omega)]
      omega

/-- With `maxReconnectAttempts = 0` the attempt counter grows without bound. -/
theorem iterFailures_attempts_unlimited :
    ∀ n, (AMIClient.iterFailures 0 n).reconnectAttempts = n := by
  intro n
  induction n with
  | zero => rfl
  | succ n ih =>
    have hsr := (iterFailures_fields 0 n).2
    unfold AMIClient.iterFailures at *
    rw [Function.iterate_succ_apply', onConnectFailure_attempts 0 _ hsr, ih]
    rw [if_neg (by omega)]

/-- C7: a supervisor configured with `maxReconnectAttempts = 3`, after at
least 3 consecutive failures since the last success, schedules no further
retry: the next `scheduleReconnect` call arms no timer, surfaces the
`Max reconnect attempts reached` error signal, leaves the state (and hence the
process) untouched, and `getStatus` reports 3 attempts and `connected = false`.
With `maxReconnectAttempts = 0` every failure schedules another retry, with an
unbounded attempt count; a successful connection resets the consecutive
counter. -/
theorem supervisor_max_attempts (host : String) (port activeCallsSize n : Nat)
    (h : 3 ≤ n) :
    (AMIClient.scheduleReconnect 3 (AMIClient.iterFailures 3 n)).2.1 = false ∧
    (AMIClient.scheduleReconnect 3 (AMIClient.iterFailures 3 n)).2.2 = true ∧
    (AMIClient.scheduleReconnect 3 (AMIClient.iterFailures 3 n)).1 =
      AMIClient.iterFailures 3 n ∧
    AMIClient.getStatus host port activeCallsSize (AMIClient.iterFailures 3 n) =
      { connected := false
        host := host
        port := port
        reconnectAttempts := 3
        activeCalls := activeCallsSize } ∧
    (∀ m, (AMIClient.scheduleReconnect 0 (AMIClient.iterFailures 0 m)).2.1 = true) ∧
    (∀ m, (AMIClient.iterFailures 0 m).reconnectAttempts = m) ∧
    (∀ s, (AMIClient.onConnectSuccess s).reconnectAttempts = 0) := by
  have hattempts : (AMIClient.iterFailures 3 n).reconnectAttempts = 3 := by
    rw [iterFailures_attempts_capped n]
    omega
  have hsr := (iterFailures_fields 3 n).2
  have hconn := (iterFailures_fields 3 n).1
  have hsched : AMIClient.scheduleReconnect 3 (AMIClient.iterFailures 3 n) =
      (AMIClient.iterFailures 3 n, false, true) := by
    unfold AMIClient.scheduleReconnect
    rw [hsr]
    simp only [Bool.not_true, Bool.false_eq_true, if_false]
    rw [if_pos ⟨by omega, by rw [hattempts]⟩]
  refine ⟨by rw [hsched], by rw [hsched], by rw [hsched], ?_, ?_, ?_, ?_⟩
  · unfold AMIClient.getStatus
    rw [hattempts, hconn]
  · intro m
    have hsr0 := (iterFailures_fields 0 m).2
    unfold AMIClient.scheduleReconnect
    rw [hsr0]
    simp only [Bool.not_true, Bool.false_eq_true, if_false]
    rw [if_neg (by omega)]
  · exact iterFailures_attempts_unlimited
  · intro s
    rfl

/-- Witness for C7 after 5 consecutive failures. -/
theorem supervisor_max_attempts_witness :
    (AMIClient.scheduleReconnect 3 (AMIClient.iterFailures 3 5)).2.1 = false ∧
    AMIClient.getStatus "127.0.0.1" 5038 0 (AMIClient.iterFailures 3 5) =
      { connected := false
        host := "127.0.0.1"
        port := 5038
        reconnectAttempts := 3
        activeCalls := 0 } := by
  have h := supervisor_max_attempts "127.0.0.1" 5038 0 5 (by decide)
  exact ⟨h.1, h.2.2.2.1⟩

/-- C8: completion-event correlation is unambiguous.  Any session selected by
the playback-finished scan holds the matching `currentPlayback` id with the
pending flag set, and any session selected by the recording-finished scan
holds the matching `recordingName`; and when the active sessions hold pairwise
distinct correlation keys, the scan selects exactly the session holding the
key — two sessions with distinct keys never cross-match. -/
theorem correlation_unambiguous (m : List (String × ARIClient.ChannelData))
    (playbackId recordingName : String) :
    (∀ p, ARIClient.findChannelForPlayback playbackId m = some p →
       p ∈ m ∧ p.2.currentPlayback = some playbackId ∧ p.2.pendingRecording = true) ∧
    (∀ p, ARIClient.findChannelForRecording recordingName m = some p →
       p ∈ m ∧ p.2.recordingName = some recordingName) ∧
    (ARIClient.DistinctPlaybackKeys m →
       ∀ p ∈ m, p.2.currentPlayback = some playbackId → p.2.pendingRecording = true →
         ARIClient.findChannelForPlayback playbackId m = some p) ∧
    (ARIClient.DistinctRecordingKeys m →
       ∀ p ∈ m, p.2.recordingName = some recordingName →
         ARIClient.findChannelForRecording recordingName m = some p) := by
  refine ⟨?_, ?_, ?_, ?_⟩
  · intro p hp
    have hm := List.mem_of_find?_eq_some hp
    have hps := List.find?_some hp
    simp only [Bool.and_eq_true, beq_iff_eq] at hps
    exact ⟨hm, hps.1, hps.2⟩
  · intro p hp
    have hm := List.mem_of_find?_eq_some hp
    have hps := List.find?_some hp
    simp only [beq_iff_eq] at hps
    exact ⟨hm, hps⟩
  · intro hd p hp hcp hpend
    have hpw : m.Pairwise (fun a b =>
        ¬((a.2.currentPlayback == some playbackId && a.2.pendingRecording) = true ∧
          (b.2.currentPlayback == some playbackId && b.2.pendingRecording) = true)) := by
      refine hd.imp ?_
      intro a b hab hcontra
      simp only [Bool.and_eq_true, beq_iff_eq] at hcontra
      rcases hab with hnone | hne
      · rw [hcontra.1.1] at hnone
        cases hnone
      · rw [hcontra.1.1, hcontra.2.1] at hne
        exact hne rfl
    apply find?_first_unique m p hp (by simp [hcp, hpend])
    intro b hb hpb
    exact mem_pred_unique hpw b hb p hp hpb (by simp [hcp, hpend])
  · intro hd p hp hrn
    have hpw : m.Pairwise (fun a b =>
        ¬((a.2.recordingName == some recordingName) = true ∧
          (b.2.recordingName == some recordingName) = true)) := by
      refine hd.imp ?_
      intro a b hab hcontra
      simp only [beq_iff_eq] at hcontra
      rcases hab with hnone | hne
      · rw [hcontra.1] at hnone
        cases hnone
      · rw [hcontra.1, hcontra.2] at hne
        exact hne rfl
    apply find?_first_unique m p hp (by simp [hrn])
    intro b hb hpb
    exact mem_pred_unique hpw b hb p hp hpb (by simp [hrn])

/-- Witness for C8: with two concurrent sessions holding distinct playback and
recording keys, the scans pick exactly the holder of each key. -/
theorem correlation_unambiguous_witness :
    ARIClient.findChannelForPlayback "pb-2" twoSessions = some ("chan-B", sessionB) ∧
    ARIClient.findChannelForRecording "rec-A" twoSessions = some ("chan-A", sessionA) := by
  have h2 := correlation_unambiguous twoSessions "pb-2" "rec-A"
  exact ⟨h2.2.2.1 (by decide) ("chan-B", sessionB) (by decide) (by decide) (by decide),
    h2.2.2.2 (by decide) ("chan-A", sessionA) (by decide) (by decide)⟩

/-- C1 counterexample: on the normal pipeline path the session's `state`
field runs through `'started'`, `'answered'`, `'recording'`, `'processing'`
and never assumes a `'prompting'` value — the claimed
Started→Answered→Prompting→Recording→Processing sequence, with Prompting
"actually assumed in turn", is false of the code; the prompting phase is
tracked by the `currentPlayback`/`pendingRecording` fields instead of by
`state`. -/
theorem pipeline_no_prompting_state :
    normalStateTrace "1001" "Alice" 0 "pb-1" "rec-1" =
      ["started", "answered", "answered", "recording", "processing"] ∧
    "prompting" ∉ normalStateTrace "1001" "Alice" 0 "pb-1" "rec-1" := by
  decide

/-- C1 amended: on the normal path the session `state` assumes exactly
`started`, `answered`, `recording`, `processing` in that order (with
`answered` persisting through the prompting phase, which is tracked in
`currentPlayback`/`pendingRecording` rather than `state`), never skipping or
reversing a step of that four-value order. -/
theorem pipeline_state_order (callerId callerName : String) (startTime : Int)
    (playbackId recordingName : String) :
    normalStateTrace callerId callerName startTime playbackId recordingName =
      ["started", "answered", "answered", "recording", "processing"] ∧
    (normalStateTrace callerId callerName startTime playbackId recordingName).dedup =
      ["started", "answered", "recording", "processing"] :=
  ⟨rfl, rfl⟩

/-- C2 counterexample: `failTranscription` on a job already `completed` does
not leave it `completed` — the unguarded `UPDATE ... WHERE id = ?` overwrites
the terminal status with `failed`. -/
theorem failTranscription_overwrites_completed :
    completedTransDb.rows.map (fun r => r.status) = ["completed"] ∧
    ((TranscriptionRepository.failTranscription 1 "synthetic failure" 99
        completedTransDb).2.rows.map (fun r => r.status)) = ["failed"] := by
  decide

/-- C2 amended: `completeTranscription` and `failTranscription` are
unconditional updates keyed only by the job id: for every existing row with
that id they set the status to `completed` (resp. `failed`) regardless of the
current status — so the status can regress, e.g. `failTranscription` after
`completeTranscription` leaves the job `failed` — while rows with other ids
are untouched. -/
theorem transcription_updates_unconditional (db : TranscriptionRepository.TransDb)
    (i : Nat) (text msg : String) (now : Int) :
    (∀ r ∈ (TranscriptionRepository.completeTranscription i text now db).2.rows,
       (r.id = i → r.status = "completed") ∧ (r.id ≠ i → r ∈ db.rows)) ∧
    (∀ r ∈ (TranscriptionRepository.failTranscription i msg now db).2.rows,
       (r.id = i → r.status = "failed") ∧ (r.id ≠ i → r ∈ db.rows)) ∧
    (∀ r ∈ (TranscriptionRepository.failTranscription i msg now
        (TranscriptionRepository.completeTranscription i text now db).2).2.rows,
       r.id = i → r.status = "failed") := by
  refine ⟨?_, ?_, ?_⟩
  · intro r hr
    rcases List.mem_map.mp hr with ⟨r0, hr0, rfl⟩
    by_cases h0 : (r0.id == i) = true
    · constructor
      · intro _
        simp [TranscriptionRepository.completeRow, h0]
      · intro hne
        exact absurd (by simp [TranscriptionRepository.completeRow, h0, beq_iff_eq.mp h0])
          hne
    · rw [show TranscriptionRepository.completeRow i text now r0 = r0 from
        by simp [TranscriptionRepository.completeRow, h0]]
      exact ⟨fun hid => absurd (beq_iff_eq.mpr hid) h0, fun _ => hr0⟩
  · intro r hr
    rcases List.mem_map.mp hr with ⟨r0, hr0, rfl⟩
    by_cases h0 : (r0.id == i) = true
    · constructor
      · intro _
        simp [TranscriptionRepository.failRow, h0]
      · intro hne
        exact absurd (by simp [TranscriptionRepository.failRow, h0, beq_iff_eq.mp h0]) hne
    · rw [show TranscriptionRepository.failRow i msg now r0 = r0 from
        by simp [TranscriptionRepository.failRow, h0]]
      exact ⟨fun hid => absurd (beq_iff_eq.mpr hid) h0, fun _ => hr0⟩
  · intro r hr hid
    rcases List.mem_map.mp hr with ⟨r0, _, rfl⟩
    have h0 : (r0.id == i) = true := by
      have : (TranscriptionRepository.failRow i msg now r0).id = r0.id := by
        unfold TranscriptionRepository.failRow
        split <;> rfl
      exact beq_iff_eq.mpr (this ▸ hid)
    simp [TranscriptionRepository.failRow, h0]

/-- Witness for C2 (amended) on the concrete completed job: a later
`failTranscription` leaves its status `failed`. -/
theorem transcription_updates_unconditional_witness :
    failedJobAfter.status = "failed" := by
  have h := transcription_updates_unconditional completedTransDb 1 "ignored"
    "synthetic failure" 99
  exact (h.2.1 failedJobAfter (by decide)).1 (by decide)

/-- C9 counterexample: a record that has already reached `call_state='ended'`
is moved back to `'answered'` by a later answered-code (state 6) state-change
event: `handleNewState` calls `updateCallAnswered`, whose
`UPDATE ... WHERE unique_id = ?` carries no guard on the current state. -/
theorem answered_event_regresses_ended_call :
    (CallRepository.getCallByUniqueId "abc.1" endedState.db).map
      (fun r => r.callState) = some "ended" ∧
    (CallRepository.getCallByUniqueId "abc.1"
        (AMIClient.handleNewState answeredEvent 9000 endedState).1.db).map
      (fun r => r.callState) = some "answered" := by
  decide

/-- C9 amended: `CallRecord.state` is not guarded against regression:
`updateCallAnswered` unconditionally sets `call_state = 'answered'` and stamps
`answerTime` on every record with the `uniqueId` — including one already
`ended` — and leaves other records untouched; consequently any answered-code
state-change event handled by `handleNewState` forces the matching records to
`'answered'` regardless of their prior state. -/
theorem updateCallAnswered_unconditional (uniqueId : String) (now : Int)
    (db : CallRepository.CallsDb) :
    (∀ r ∈ (CallRepository.updateCallAnswered uniqueId now db).2.rows,
       (r.uniqueId = uniqueId → r.callState = "answered" ∧ r.answerTime = some now) ∧
       (r.uniqueId ≠ uniqueId → r ∈ db.rows)) ∧
    (∀ event : AMIClient.AmiEvent, ∀ s : AMIClient.AMIState,
       event.channelstate = 6 →
       ∀ r ∈ (AMIClient.handleNewState event now s).1.db.rows,
         r.uniqueId = event.uniqueid.getD "" → r.callState = "answered") := by
  have hrow : ∀ (u : String) (d : CallRepository.CallsDb),
      ∀ r ∈ (CallRepository.updateCallAnswered u now d).2.rows,
      (r.uniqueId = u → r.callState = "answered" ∧ r.answerTime = some now) ∧
      (r.uniqueId ≠ u → r ∈ d.rows) := by
    intro u d r hr
    rcases List.mem_map.mp hr with ⟨r0, hr0, rfl⟩
    by_cases h0 : (r0.uniqueId == u) = true
    · constructor
      · intro _
        constructor <;> simp [CallRepository.answerRow, h0]
      · intro hne
        exact absurd (by simp [CallRepository.answerRow, h0, beq_iff_eq.mp h0]) hne
    · rw [show CallRepository.answerRow u now r0 = r0 from
        by simp [CallRepository.answerRow, h0]]
      exact ⟨fun hid => absurd (beq_iff_eq.mpr hid) h0, fun _ => hr0⟩
  refine ⟨hrow uniqueId db, ?_⟩
  intro event s hstate r hr huid
  have h6 : (event.channelstate == 6) = true := by
    rw [hstate]
    rfl
  have hrows : (AMIClient.handleNewState event now s).1.db.rows =
      (CallRepository.updateCallAnswered (event.uniqueid.getD "") now s.db).2.rows := by
    unfold AMIClient.handleNewState
    rw [if_pos h6]
    cases hml : mapLookup s.activeCalls (event.uniqueid.getD "") <;>
      simp [hml, CallRepository.logCallEvent]
  rw [hrows] at hr
  exact ((hrow (event.uniqueid.getD "") s.db r hr).1 huid).1

/-- Witness for C9 (amended) on the concrete ended record: a later
`updateCallAnswered` leaves it `answered` with the new answer time. -/
theorem updateCallAnswered_unconditional_witness :
    reAnsweredRec.callState = "answered" ∧ reAnsweredRec.answerTime = some 8000 := by
  have h := updateCallAnswered_unconditional "abc.1" 8000 endedState.db
  exact (h.1 reAnsweredRec (by decide)).1 (by decide)

/-- C3: the batch retry as implemented never processes anything.  Because the
`static async` `getPendingTranscriptions` is called without `await`, the
`for ... of` loop iterates a Promise and throws
`TypeError: pending is not iterable` before any `processRecording` call: for
every store the function rejects with that error and leaves the store
unchanged, and at the concrete failing input `pendingTransDb` the single
pending job stays `pending` instead of becoming `completed` or `failed`,
contrary to the claimed batch-retry contract. -/
theorem retryFailed_throws_before_processing
    (results : Nat → AIProcessor.AIResult) (now : Int)
    (db : TranscriptionRepository.TransDb) :
    AIProcessor.retryFailed results now db =
      (db, Except.error "TypeError: pending is not iterable") ∧
    (AIProcessor.retryFailed results now pendingTransDb).1.rows.map
      (fun r => r.status) = ["pending"] :=
  ⟨rfl, rfl⟩

end VoiceGateway
